import Mathlib

/-!
# Verification of git-llm-utils: settings resolution and LLM orchestration

Shallow embedding of the core of the `git-llm-utils` repository:

* `src/git_llm_utils/utils.py` — the `_bool` parser and the top-level error
  handler (`safe_run`);
* `src/git_llm_utils/git.py` — `get_config` (the stored-value read);
* `src/git_llm_utils/app.py` — `SettingLoader` (`load_config`, `set_value`,
  `get_value`), `Runtime._set_repository`, and the `generate` command;
* `src/llm_cli.py` — `LLMClient`: system prompt selection, diff truncation,
  the tool-call conversation loop, and the tool denial path.

Python values that flow through the settings machinery are either `None`,
a `bool`, an `int`, or a `str`; they are embedded as `Option Value`.
Python exceptions are embedded as `Except String`.
-/

/-- A Python value held by a setting: the factory defaults, stored config
values and CLI values of `app.py` are booleans, integers or strings
(`None` is represented by `Option.none` one level up). -/
inductive Value where
  | bool (b : Bool)
  | int (n : Int)
  | str (s : String)
  deriving DecidableEq, Repr

/-- Python truthiness of an optional value: `None`, `False`, `0` and `""`
are falsy, everything else is truthy. -/
def pyTruthy : Option Value → Bool
  | none => false
  | some (Value.bool b) => b
  | some (Value.int n) => n != 0
  | some (Value.str s) => s != ""

/-- Python `str()` of an optional value, as used in the f-strings of
`SettingLoader.load_config`: `str(None) = "None"`, `str(True) = "True"`. -/
def pyStr : Option Value → String
  | none => "None"
  | some (Value.bool true) => "True"
  | some (Value.bool false) => "False"
  | some (Value.int n) => toString n
  | some (Value.str s) => s

/-- Python f-string interpolation of an optional string (`None` renders as
the text `None`). -/
def pyFmtOpt : Option String → String
  | none => "None"
  | some s => s

/-- Python `str.strip()`: drop whitespace from both ends. -/
def pyStrip (s : String) : String :=
  String.mk (((s.data.dropWhile Char.isWhitespace).reverse.dropWhile Char.isWhitespace).reverse)

/-- Python `str.lower()` (ASCII case folding, which covers every string
the settings machinery compares). -/
def pyLower (s : String) : String :=
  String.mk (s.data.map Char.toLower)

/-- `utils._bool`: `if type(value) is bool: return value` then
`return value and value.lower() in ("1", "true", "yes") or False`.
A falsy argument (`None`, `""`, `0`) short-circuits `and` and the trailing
`or False` turns it into `False`; a truthy string is lowercased and tested
against the three accepted spellings; a truthy non-string (an `int`) would
raise `AttributeError` on `.lower()`, embedded as `Except.error`. -/
def _bool : Option Value → Except String Bool
  | some (Value.bool b) => Except.ok b
  | none => Except.ok false
  | some (Value.str s) =>
      Except.ok (if s = "" then false else decide (pyLower s ∈ ["1", "true", "yes"]))
  | some (Value.int n) =>
      if n = 0 then Except.ok false
      else Except.error "AttributeError: int object has no attribute lower"

/-- The digits of a decimal literal, or `none` when the character list is
empty or contains a non-digit. -/
def parseNatDigits : List Char → Option Nat
  | [] => none
  | cs =>
      if cs.all Char.isDigit then
        some (cs.foldl (fun acc c => acc * 10 + (c.toNat - 48)) 0)
      else none

/-- Python `int(s)` on a string: strip surrounding whitespace, allow one
optional sign, then decimal digits; anything else raises `ValueError`
(embedded as `Except.error`). Underscored literals are not modelled. -/
def pyInt (s : String) : Except String Int :=
  let err : Except String Int :=
    Except.error ("invalid literal for int() with base 10: " ++ s)
  match (pyStrip s).data with
  | '-' :: rest =>
      match parseNatDigits rest with
      | some n => Except.ok (-(n : Int))
      | none => err
  | '+' :: rest =>
      match parseNatDigits rest with
      | some n => Except.ok (n : Int)
      | none => err
  | t =>
      match parseNatDigits t with
      | some n => Except.ok (n : Int)
      | none => err

/-- The parser attached to a `SettingLoader` in `app.py`: `None` (no
parsing), `_bool`, or Python `int`. -/
inductive ParserKind where
  | noparse
  | pbool
  | pint
  deriving DecidableEq, Repr

/-- Application of a setting parser to an already-typed value, as in
`self.parser(self.config)`: `_bool` accepts bools and strings; `int`
accepts ints (identity), bools (`int(True) = 1`) and strings (`pyInt`). -/
def parseValue : ParserKind → Value → Except String Value
  | ParserKind.noparse, v => Except.ok v
  | ParserKind.pbool, v => (_bool (some v)).map Value.bool
  | ParserKind.pint, Value.int n => Except.ok (Value.int n)
  | ParserKind.pint, Value.bool b => Except.ok (Value.int (if b then 1 else 0))
  | ParserKind.pint, Value.str s => (pyInt s).map Value.int

/-- Whether an embedded Python computation completed without raising. -/
def isOkE {α : Type} : Except String α → Bool
  | Except.ok _ => true
  | Except.error _ => false

/-- `app.SettingLoader`: one declared tunable. `factory` is the compiled-in
default, `config` the cached stored-config resolve, `value` the CLI- or
environment-parsed value delivered by the option callback. -/
structure SettingLoader where
  name : String
  key : String
  factory : Option Value
  config : Option Value
  value : Option Value
  hint : Option String
  bool_hint : Option String
  parser : ParserKind
  deriving DecidableEq, Repr

/-- `git.get_config`: `output and str.strip(output) or default_value` —
the stored string is stripped; a missing or whitespace-only output falls
back to the default value. `stored` is the raw stdout of
`git config --get`, or `none` when the key is absent. -/
def get_config (stored : Option String) (default_value : Option Value) : Option Value :=
  match stored with
  | none => default_value
  | some out => if pyStrip out = "" then default_value else some (Value.str (pyStrip out))

/-- `SettingLoader.load_config` (the cache-refresh part): re-read the
stored configuration with the factory default as fallback and, when a
parser is attached and the result is not `None`, apply the parser
(`self.config = self.parser(self.config)`). A parser exception
propagates. -/
def load_config (L : SettingLoader) (stored : Option String) : Except String SettingLoader :=
  match get_config stored L.factory, L.parser with
  | some v, ParserKind.noparse => Except.ok { L with config := some v }
  | some v, ParserKind.pbool =>
      match parseValue ParserKind.pbool v with
      | Except.ok w => Except.ok { L with config := some w }
      | Except.error e => Except.error e
  | some v, ParserKind.pint =>
      match parseValue ParserKind.pint v with
      | Except.ok w => Except.ok { L with config := some w }
      | Except.error e => Except.error e
  | none, _ => Except.ok { L with config := none }

/-- Truthiness of `_bool(str(config))` as used by the boolean help text
(total: its argument is always a string). -/
def _boolStr (s : String) : Bool :=
  if s = "" then false else decide (pyLower s ∈ ["1", "true", "yes"])

/-- The help string computed by `SettingLoader.load_config`: boolean
settings render an on/off flag default, other settings render
`str(config)`. -/
def help_of (L : SettingLoader) : String :=
  if L.parser = ParserKind.pbool then
    pyFmtOpt L.hint ++ " [bold green]\\[default: " ++
      (if _boolStr (pyStr L.config) then "--" ++ pyFmtOpt L.bool_hint
       else "--no-" ++ pyFmtOpt L.bool_hint) ++ L.name ++ "][/bold green]"
  else
    pyFmtOpt L.hint ++ " [bold green]\\[default: " ++ pyStr L.config ++ "][/bold green]"

/-- `SettingLoader.set_value`: store the CLI/environment value, parsed
unless no parser is attached or the value is `None`. -/
def set_value (L : SettingLoader) (v : Option Value) : Except String SettingLoader :=
  match v, L.parser with
  | none, _ => Except.ok { L with value := none }
  | some w, ParserKind.noparse => Except.ok { L with value := some w }
  | some w, p =>
      match parseValue p w with
      | Except.ok u => Except.ok { L with value := some u }
      | Except.error e => Except.error e

/-- `SettingLoader.get_value`: full precedence. Each layer is tested with
`is not None` (not truthiness): an explicit `given` argument wins, then
the CLI/environment-parsed `value`, then the cached stored-config
`config`, then the factory default. -/
def get_value (L : SettingLoader) (given : Option Value) : Option Value :=
  if given.isSome then given
  else if L.value.isSome then L.value
  else if L.config.isSome then L.config
  else L.factory

/-- `Runtime.load_setting` (the loader-construction part): the config key
is the setting name with underscores replaced by dashes; the cached config
and CLI value start out empty. -/
def load_setting (name : String) (factory : Option Value) (p : ParserKind)
    (hint : Option String) (bool_hint : Option String) : SettingLoader :=
  { name := name
    key := String.mk ((pyStrip name).data.map (fun c => if c = '_' then '-' else c))
    factory := factory
    config := none
    value := none
    hint := hint
    bool_hint := bool_hint
    parser := p }

/-- The `EMOJIS` setting of the `Setting` enum. -/
def emojisLoader : SettingLoader :=
  load_setting "emojis" (some (Value.bool true)) ParserKind.pbool
    (some "If true will instruct the LLMs to add applicable emojis (see --config)")
    (some "with-")

/-- The `COMMENTS` setting of the `Setting` enum. -/
def commentsLoader : SettingLoader :=
  load_setting "comments" (some (Value.bool true)) ParserKind.pbool
    (some "If true will generate the commit message commented out so that saving it will exclude it from the commit message (see --config)")
    (some "with-")

/-- The `MODEL` setting of the `Setting` enum. -/
def modelLoader : SettingLoader :=
  load_setting "model" (some (Value.str "ollama/qwen3-coder:480b-cloud")) ParserKind.noparse
    (some "The model to use (has to be available) according to the LiteLLM provider, as in `ollama/llama2` or `openai/gpt-5-mini`")
    (some "with-")

/-- The `MAX_INPUT_TOKENS` setting of the `Setting` enum. -/
def maxInputTokensLoader : SettingLoader :=
  load_setting "max_input_tokens" (some (Value.int 262144)) ParserKind.pint
    (some "How many tokens to send at most to the model")
    (some "with-")

/-- The `MAX_OUTPUT_TOKENS` setting of the `Setting` enum. -/
def maxOutputTokensLoader : SettingLoader :=
  load_setting "max_output_tokens" (some (Value.int 32768)) ParserKind.pint
    (some "How many tokens to get at most from the model")
    (some "with-")

/-- The `TOOLS` setting of the `Setting` enum. -/
def toolsLoader : SettingLoader :=
  load_setting "tools" (some (Value.bool false)) ParserKind.pbool
    (some "Whether to allow tools usage or not while requesting llm responses")
    (some "with-")

/-- The `MANUAL` setting of the `Setting` enum (hint abbreviated; its
`bool_hint` is the empty string so the flag renders as `--manual`). -/
def manualLoader : SettingLoader :=
  load_setting "manual" (some (Value.bool true)) ParserKind.pbool
    (some "If true will only generate the commit status message when called with the GIT_LLM_ON environment variable set on True.")
    (some "")

/-- `app.safe_run`: `try: app() except Exception as e:` report
`Application failed: {e}` to the user instead of crashing (the
`ErrorHandler.report_error` text carries an `ERROR: ` prefix). Returns the
reported error line, empty when the run succeeded. -/
def safe_run_report {α : Type} : Except String α → String
  | Except.ok _ => ""
  | Except.error e => "ERROR: Application failed: " ++ e

/-- `app.Runtime`: the process-wide state the claims touch — the resolved
repository root and, per declared setting, the loader together with the
typer option's `default` and `help` metadata. -/
structure RuntimeState where
  repository : Option String
  settings : List (SettingLoader × Option Value × String)
  deriving Repr

/-- The reload performed by `Runtime._set_repository` when the root
changed: `(option.default, option.help) = loader.load_config()` for every
declared setting, reading the new repository's stored config. `store`
models `git config --get` as a map from repository root and key to raw
output. -/
def reload_settings (store : Option String → String → Option String)
    (repo : Option String) :
    List (SettingLoader × Option Value × String) →
    Except String (List (SettingLoader × Option Value × String))
  | [] => Except.ok []
  | (L, _, _) :: rest =>
      match load_config L (store repo L.key) with
      | Except.error e => Except.error e
      | Except.ok L' =>
          match reload_settings store repo rest with
          | Except.error e => Except.error e
          | Except.ok rest' => Except.ok ((L', L'.config, help_of L') :: rest')

/-- `Runtime._set_repository`: remember the previous root, adopt the new
resolved root, and reload every declared setting's default/help metadata
only when the root actually changed. `newRepo` is the already-resolved
result of `get_repository_path`. -/
def set_repository (store : Option String → String → Option String)
    (st : RuntimeState) (newRepo : Option String) : Except String RuntimeState :=
  if st.repository = newRepo then
    Except.ok { st with repository := newRepo }
  else
    match reload_settings store newRepo st.settings with
    | Except.error e => Except.error e
    | Except.ok settings' => Except.ok { repository := newRepo, settings := settings' }

/-- `app.NO_CHANGES_MESSAGE`. -/
def NO_CHANGES_MESSAGE : String :=
  "no changes added to commit (use \"git add\" and/or \"git commit -a\")"

/-- One character step of the comment formatter in `generate`: when not
inside a commented line emit the `# ` marker first, then the character;
a newline leaves commented-line mode. -/
def comment_step (acc : List Char × Bool) (c : Char) : List Char × Bool :=
  ((if acc.2 then acc.1 else acc.1 ++ ['#', ' ']) ++ [c], c != '\n')

/-- Recursive restatement of the comment formatter (spec side, for the
refinement proof): at the start of a line a nonempty rest gets the `# `
marker before its first character; the flag tracks whether we are inside
a line. -/
def commentSpec : Bool → List Char → List Char
  | _, [] => []
  | false, c :: cs => '#' :: ' ' :: c :: commentSpec (c != '\n') cs
  | true, c :: cs => c :: commentSpec (c != '\n') cs

/-- The output loop of `generate` over the chunks yielded by
`client.message`: with comments enabled, fold the character-level comment
formatter (the `commented` flag persists across chunks); otherwise print
the chunks verbatim. -/
def render (comments : Bool) (chunks : List String) : String :=
  if comments then
    String.mk (chunks.foldl (fun a m => m.data.foldl comment_step a) ([], false)).1
  else
    chunks.foldl (fun a m => a ++ m) ""

/-- `app.generate`, lines 360–400: the MANUAL gate
(`if Runtime.get_value(MANUAL, manual) and not manual_override: return
False`), the staged-changes check (`changes is None or not
changes.strip()` prints the fixed no-changes line and returns `False`),
then the rendering of the model chunks, plain or commented, and `True`.
`chunks` are the strings yielded by `client.message`; the returned string
is everything printed to the `output` stream. -/
def generate (manualL commentsL : SettingLoader) (manual with_comments : Option Value)
    (manual_override : Bool) (changes : Option String) (chunks : List String) :
    Bool × String :=
  if pyTruthy (get_value manualL manual) && !manual_override then
    (false, "")
  else
    match changes with
    | none => (false, NO_CHANGES_MESSAGE ++ "\n")
    | some ch =>
        if pyStrip ch = "" then (false, NO_CHANGES_MESSAGE ++ "\n")
        else (true, render (pyTruthy (get_value commentsL with_comments)) chunks)

/-- `llm_cli.system_prompt_pre` (opening line of the literal; the rest of
the constant is fixed prose instructions whose content no verified
property depends on). -/
def system_prompt_pre : String :=
  "\nYou are an expert software engineer and technical writer. Your sole task is to analyze the provided **'git diff --staged' output** and generate a professional, descriptive, and concise **Git commit message**.\n"

/-- `llm_cli.system_prompt_emojis` (opening line of the literal; the rest
is the fixed gitmoji legend). -/
def system_prompt_emojis : String :=
  "\nUse the following emojis within the subject line or the body (if applicable):\n"

/-- `llm_cli.system_prompt_pos`. -/
def system_prompt_pos : String :=
  "\n**Analyze the 'git diff --staged' output provided below and return only the generated commit message using text or markdown.**\n"

/-- One tool invocation requested by the model: `tool_call.id` and
`tool_call.function.name`. The JSON argument payload of the single
declared capability is an empty object and is not modelled. -/
structure ToolCall where
  id : String
  name : String
  deriving DecidableEq, Repr

/-- One entry of the conversation history passed to `completion`. -/
inductive Msg where
  | system (content : String)
  | user (content : String)
  | assistant (tool_calls : List ToolCall)
  | tool (id : String) (name : String) (content : String)
  deriving DecidableEq, Repr

/-- The completion response fields the loop inspects:
`response.choices[0]["message"]["content"]` and `["tool_calls"]`
(an absent/`None` tool-call list is the empty list). -/
structure ModelResponse where
  content : String
  tool_calls : List ToolCall
  deriving DecidableEq, Repr

/-- A deterministic completion transport: from the message history and the
declared tool names to the model response. -/
def Transport : Type := List Msg → List String → ModelResponse

/-- `llm_cli.LLMClient`: the fields the conversation loop reads. The lazy
repository-description supplier is embedded by its behaviour when called:
`none` when absent, otherwise the returned text or the raised exception. -/
structure LLMClient where
  use_emojis : Bool
  max_tokens : Nat
  max_output_tokens : Nat
  max_iterations : Nat
  use_tools : Bool
  respository_description : Option (Except String String)

/-- `LLMClient.system_prompt`: `use_emojis and pre+emojis+pos or pre+pos`. -/
def system_prompt (c : LLMClient) : String :=
  if c.use_emojis then
    system_prompt_pre ++ "\n" ++ system_prompt_emojis ++ "\n" ++ system_prompt_pos
  else
    system_prompt_pre ++ "\n" ++ system_prompt_pos

/-- `LLMClient._deny_message`. -/
def _deny_message : String := "Can't do that"

/-- `LLMClient._responsitory_description`: call the supplier inside
`try/except`; an absent supplier or a raised exception yields the empty
string — the exception never propagates. -/
def responsitory_description (sup : Option (Except String String)) : String :=
  match sup with
  | some (Except.ok s) => s
  | some (Except.error _) => ""
  | none => ""

/-- The keys of `LLMClient._available_tools` (and the single declared tool
name of `LLMClient._tools`). -/
def available_tool_names : List String := ["get_respository_description"]

/-- The tool-result content the loop appends for one requested call:
`function_to_call(**args) or deny` when the named capability exists and
the iteration counter is below `max_iterations`, the fixed denial string
otherwise (an empty supplier result is falsy and also denies). -/
def tool_response (sup : Option (Except String String)) (max_iterations interaction : Nat)
    (name : String) : String :=
  if name ∈ available_tool_names ∧ interaction < max_iterations then
    let r := responsitory_description sup
    if r = "" then _deny_message else r
  else _deny_message

/-- Python `s[:n]` for a nonnegative bound: the first `n` code points. -/
def pySlice (s : String) (n : Nat) : String := String.mk (s.data.take n)

/-- The initial conversation of `LLMClient.message`: the system prompt and
the user message `diff_changes[:self.max_tokens]`. -/
def message_init (c : LLMClient) (diff : String) : List Msg :=
  [Msg.system (system_prompt c), Msg.user (pySlice diff c.max_tokens)]

/-- The `while incomplete` loop of `LLMClient.message`, fuel-indexed so
that a run that has not terminated after `fuel` completion round-trips
returns `none`. Each round records the tool declarations passed to
`completion` (`interaction < max_iterations and tools or []`). A
tool-call response appends the assistant message and one tool-result
per requested call, then loops **without incrementing `interaction`**,
exactly as in the source; a plain response ends the loop and its content
is the single yielded chunk (`stream=False`). Returns the per-round
declared tool names and the final content, when reached. -/
def message_loop (c : LLMClient) (model : Transport) :
    List Msg → Nat → Nat → List (List String) × Option String
  | _, _, 0 => ([], none)
  | msgs, interaction, fuel + 1 =>
      let tools : List String := if c.use_tools then available_tool_names else []
      let declared : List String := if interaction < c.max_iterations then tools else []
      let response := model msgs declared
      if response.tool_calls = [] then
        ([declared], some response.content)
      else
        let msgs' := msgs ++ [Msg.assistant response.tool_calls] ++
          response.tool_calls.map (fun tc =>
            Msg.tool tc.id tc.name
              (tool_response c.respository_description c.max_iterations interaction tc.name))
        let rest := message_loop c model msgs' interaction fuel
        (declared :: rest.1, rest.2)

/-- `LLMClient.message`: build the initial messages and run the loop with
the iteration counter starting at 1. -/
def message (c : LLMClient) (model : Transport) (diff : String) (fuel : Nat) :
    List (List String) × Option String :=
  message_loop c model (message_init c diff) 1 fuel

/-- The content of the user message of a conversation, if any. -/
def user_content (msgs : List Msg) : Option String :=
  msgs.findSome? fun m =>
    match m with
    | Msg.user s => some s
    | _ => none

/-! ## Helper lemmas -/

theorem _bool_str (s : String) : _bool (some (Value.str s)) = Except.ok (_boolStr s) := rfl

/-! ## Claims -/

/-- C2: settings-resolution precedence. `SettingLoader.get_value` returns
the explicitly supplied invocation value whenever one is present (it wins
over the CLI/environment-parsed `value`, the cached stored-config
`config`, and the factory default, regardless of what those hold, since
every loader `L` is quantified); absent an explicit value, the
CLI/environment-parsed value wins over the cached config, which wins over
the factory default. -/
theorem c2_settings_precedence (L : SettingLoader) :
    (∀ v : Value, get_value L (some v) = some v) ∧
    (∀ w : Value, L.value = some w → get_value L none = some w) ∧
    (∀ c : Value, L.value = none → L.config = some c → get_value L none = some c) ∧
    (L.value = none → L.config = none → get_value L none = L.factory) := by
  refine ⟨fun v => rfl, fun w hw => ?_, fun c hv hc => ?_, fun hv hc => ?_⟩
  · simp [get_value, hw]
  · simp [get_value, hv, hc]
  · simp [get_value, hv, hc]

/-- The loader used to instantiate `c2_settings_precedence`: stored config
and CLI value both present and different from the explicit value. -/
def c2loader : SettingLoader :=
  { emojisLoader with config := some (Value.bool false), value := some (Value.str "cli") }

theorem c2_settings_precedence_witness :
    get_value c2loader (some (Value.str "explicit")) = some (Value.str "explicit") ∧
    get_value c2loader none = some (Value.str "cli") :=
  ⟨(c2_settings_precedence c2loader).1 (Value.str "explicit"),
   (c2_settings_precedence c2loader).2.1 (Value.str "cli") rfl⟩

/-- C9: `get_value` tests the explicit value with `is not None`, not
truthiness, so an explicit boolean `False` is returned even when the
stored config and the factory default are `True`. -/
theorem c9_explicit_false_wins (L : SettingLoader) (v : Value) :
    get_value L (some v) = some v ∧
    get_value
      { L with
        factory := some (Value.bool true)
        config := some (Value.bool true)
        value := some (Value.bool true) }
      (some (Value.bool false)) = some (Value.bool false) :=
  ⟨rfl, rfl⟩

/-- C10: the boolean parser `_bool` is total and never raises on its
reachable inputs — it returns its argument on a bool, `False` on `None`,
and on any string it returns `True` exactly when the lowercased string is
`"1"`, `"true"` or `"yes"` (so `False` on the empty string and on every
unrecognized string). -/
theorem c10_bool_parser_total :
    (∀ b : Bool, _bool (some (Value.bool b)) = Except.ok b) ∧
    (_bool none = Except.ok false) ∧
    (∀ s : String, _bool (some (Value.str s)) =
      Except.ok (decide (pyLower s ∈ ["1", "true", "yes"]))) := by
  refine ⟨fun b => rfl, rfl, fun s => ?_⟩
  by_cases hs : s = ""
  · subst hs; rfl
  · simp [_bool, hs]

/-- C7: for every tool invocation requested by the model, if the named
capability does not exist, or the description supplier is absent, or
reading the description raises, the tool-result content appended to the
conversation (`tool_response`, the exact content of the `Msg.tool` entry
built in `message_loop`) is the fixed denial string; the supplier's
exception is swallowed inside `responsitory_description` and never
reaches the conversation or the caller. -/
theorem c7_tool_call_denial (sup : Option (Except String String))
    (max_iterations interaction : Nat) (name : String)
    (h : name ∉ available_tool_names ∨ sup = none ∨ ∃ e, sup = some (Except.error e)) :
    tool_response sup max_iterations interaction name = _deny_message := by
  unfold tool_response
  rcases h with h | h | ⟨e, h⟩
  · rw [if_neg (fun hc => h hc.1)]
  · subst h
    by_cases hc : name ∈ available_tool_names ∧ interaction < max_iterations
    · rw [if_pos hc]; rfl
    · rw [if_neg hc]
  · subst h
    by_cases hc : name ∈ available_tool_names ∧ interaction < max_iterations
    · rw [if_pos hc]; rfl
    · rw [if_neg hc]

theorem c7_tool_call_denial_witness :
    tool_response none 5 1 "fetch_secrets" = _deny_message ∧
    tool_response (some (Except.error "read failed")) 5 1 "get_respository_description" =
      _deny_message :=
  ⟨c7_tool_call_denial none 5 1 "fetch_secrets" (Or.inl (by decide)),
   c7_tool_call_denial (some (Except.error "read failed")) 5 1 "get_respository_description"
     (Or.inr (Or.inr ⟨"read failed", rfl⟩))⟩

/-- C5: the user message handed to the completion transport is the diff
clipped to the first `max_tokens` code points (`diff_changes[:max_tokens]`):
its length is `min max_tokens (length diff)`, a diff longer than the cap
is clipped to exactly the cap, and a shorter diff is passed unchanged (the
excess is dropped without any failure). -/
theorem c5_input_truncation (c : LLMClient) (diff : String) :
    user_content (message_init c diff) = some (pySlice diff c.max_tokens) ∧
    (pySlice diff c.max_tokens).length = min c.max_tokens diff.length ∧
    (c.max_tokens ≤ diff.length → (pySlice diff c.max_tokens).length = c.max_tokens) ∧
    (diff.length ≤ c.max_tokens → pySlice diff c.max_tokens = diff) := by
  have hlen : (pySlice diff c.max_tokens).length = min c.max_tokens diff.length :=
    List.length_take c.max_tokens diff.data
  refine ⟨rfl, hlen, fun h => ?_, fun h => ?_⟩
  · rw [hlen]; exact Nat.min_eq_left h
  · show String.mk (diff.data.take c.max_tokens) = diff
    rw [List.take_of_length_le h]

/-- The client used to instantiate `c5_input_truncation`. -/
def c5client : LLMClient :=
  { use_emojis := false, max_tokens := 3, max_output_tokens := 10, max_iterations := 5,
    use_tools := false, respository_description := none }

theorem c5_input_truncation_witness :
    (pySlice "abcdef" c5client.max_tokens).length = c5client.max_tokens ∧
    pySlice "ab" c5client.max_tokens = "ab" :=
  ⟨(c5_input_truncation c5client "abcdef").2.2.1 (by decide),
   (c5_input_truncation c5client "ab").2.2.2 (by decide)⟩

/-- C3: the MANUAL gate of `generate`. With the resolved MANUAL setting
truthy and no override signal, `generate` returns `False` immediately and
emits nothing; with the gate open (manual resolved falsy, or override set)
and absent or whitespace-only staged changes, it prints exactly the fixed
no-changes line once and returns `False`. -/
theorem c3_manual_gate (mL cL : SettingLoader) (manual wc : Option Value) (ov : Bool)
    (changes : Option String) (chunks : List String) :
    (pyTruthy (get_value mL manual) = true → ov = false →
      generate mL cL manual wc ov changes chunks = (false, "")) ∧
    ((pyTruthy (get_value mL manual) = false ∨ ov = true) →
      (changes = none ∨ ∃ ch, changes = some ch ∧ pyStrip ch = "") →
      generate mL cL manual wc ov changes chunks = (false, NO_CHANGES_MESSAGE ++ "\n")) := by
  constructor
  · intro h1 h2
    subst h2
    simp [generate, h1]
  · intro h1 h2
    have hcond : (pyTruthy (get_value mL manual) && !ov) = false := by
      rcases h1 with h | h <;> simp [h]
    rcases h2 with h | ⟨ch, rfl, hch⟩
    · subst h
      simp [generate, hcond]
    · simp [generate, hcond, hch]

theorem c3_manual_gate_witness :
    generate manualLoader commentsLoader none none false (some "x") ["msg"] = (false, "") ∧
    generate manualLoader commentsLoader (some (Value.bool false)) none true (some " \n ") ["msg"] =
      (false, NO_CHANGES_MESSAGE ++ "\n") :=
  ⟨(c3_manual_gate manualLoader commentsLoader none none false (some "x") ["msg"]).1
      (by decide) rfl,
   (c3_manual_gate manualLoader commentsLoader (some (Value.bool false)) none true
      (some " \n ") ["msg"]).2 (Or.inr rfl) (Or.inr ⟨" \n ", rfl, by decide⟩)⟩

/-- The comment-formatter fold, characterized: starting from an
accumulated output and a commented-line flag, it appends exactly
`commentSpec` of the remaining characters. -/
theorem comment_fold_eq (cs : List Char) : ∀ (pre : List Char) (b : Bool),
    (cs.foldl comment_step (pre, b)).1 = pre ++ commentSpec b cs := by
  induction cs with
  | nil => intro pre b; simp [commentSpec]
  | cons c cs ih =>
    intro pre b
    cases b
    · simp [List.foldl, comment_step, commentSpec, ih]
    · simp [List.foldl, comment_step, commentSpec, ih]

/-- C4 counterexample: with comments enabled, model output
`"line1\nline2"` does **not** yield `"# line1\n# line2\n"` — the code
appends no trailing newline (nor a trailing marker). -/
theorem c4_comment_counterexample :
    (generate manualLoader commentsLoader (some (Value.bool false)) (some (Value.bool true))
      true (some "x") ["line1\nline2"]).2 ≠ "# line1\n# line2\n" := by decide

/-- C4 (amended): with comments enabled the emitted text is `commentSpec`
of the model output — the `# ` marker is emitted before the first
character of the output and re-emitted after each newline character
exactly when further output follows, and no marker is emitted for a fully
empty result; in particular model output `"line1\nline2"` yields exactly
`"# line1\n# line2"`, with no trailing newline. -/
theorem c4_comment_formatting :
    (∀ s : String, render true [s] = String.mk (commentSpec false s.data)) ∧
    render true ["line1\nline2"] = "# line1\n# line2" ∧
    render true [""] = "" ∧
    generate manualLoader commentsLoader (some (Value.bool false)) (some (Value.bool true))
      true (some "x") ["line1\nline2"] = (true, "# line1\n# line2") := by
  refine ⟨fun s => ?_, by decide, by decide, by decide⟩
  show String.mk (([s].foldl (fun a m => m.data.foldl comment_step a) ([], false)).1) = _
  simp [List.foldl, comment_fold_eq]

/-- C6 counterexample: the parser of the `max_input_tokens` setting is
Python `int`, which is not total — loading the stored (user-suppliable)
string `"abc"` raises instead of returning a value. -/
theorem c6_parser_not_total_counterexample :
    isOkE (load_config maxInputTokensLoader (some "abc")) = false := by decide

/-- C6 (amended): the boolean parser is total over any stored string, and
the integer parser is partial but fails loudly rather than coercing — an
unparsable stored value makes `load_config` raise, the raised error is
reported by the top-level handler (`safe_run`) as a user-facing
application error instead of crossing it uncaught, and any successful load
of the integer setting holds a genuinely parsed integer. -/
theorem c6_parse_failure_semantics (s : String) :
    isOkE (load_config emojisLoader (some s)) = true ∧
    (∀ e, load_config maxInputTokensLoader (some s) = Except.error e →
      safe_run_report (load_config maxInputTokensLoader (some s)) =
        "ERROR: Application failed: " ++ e) ∧
    (∀ L', load_config maxInputTokensLoader (some s) = Except.ok L' →
      ∃ n : Int, L'.config = some (Value.int n)) := by
  refine ⟨?_, fun e h => by rw [h]; rfl, fun L' h => ?_⟩
  · by_cases hs : pyStrip s = ""
    · simp [load_config, get_config, hs, emojisLoader, load_setting, parseValue, _bool,
        Except.map, isOkE]
    · simp [load_config, get_config, hs, emojisLoader, load_setting, parseValue, _bool_str,
        Except.map, isOkE]
  · by_cases hs : pyStrip s = ""
    · simp [load_config, get_config, hs, maxInputTokensLoader, load_setting, parseValue] at h
      subst h
      exact ⟨262144, rfl⟩
    · cases hpy : pyInt (pyStrip s) with
      | error e2 =>
        simp [load_config, get_config, hs, maxInputTokensLoader, load_setting, parseValue,
          hpy, Except.map] at h
      | ok n =>
        simp [load_config, get_config, hs, maxInputTokensLoader, load_setting, parseValue,
          hpy, Except.map] at h
        subst h
        exact ⟨n, rfl⟩

theorem c6_parse_failure_semantics_witness :
    isOkE (load_config emojisLoader (some "abc")) = true ∧
    safe_run_report (load_config maxInputTokensLoader (some "abc")) =
      "ERROR: Application failed: invalid literal for int() with base 10: abc" :=
  ⟨(c6_parse_failure_semantics "abc").1,
   (c6_parse_failure_semantics "abc").2.1 "invalid literal for int() with base 10: abc" rfl⟩

/-- The cached config of the first declared setting of a runtime state. -/
def first_config (st : RuntimeState) : Option Value :=
  match st.settings with
  | (L, _, _) :: _ => L.config
  | [] => none

/-- The typer option's displayed default of the first declared setting. -/
def first_default (st : RuntimeState) : Option Value :=
  match st.settings with
  | (_, d, _) :: _ => d
  | [] => none

/-- The typer option's help text of the first declared setting. -/
def first_help (st : RuntimeState) : Option String :=
  match st.settings with
  | (_, _, h) :: _ => some h
  | [] => none

/-- C8: repository-switch reload. Switching the runtime to a repository
whose resolved root differs from the cached one refreshes every declared
setting's cached config, option default and help from the new
repository's stored config, so resolving the `model` setting before and
after switching between two repositories with different stored values
yields two different resolved defaults; and when the resolved root is
unchanged the settings are left exactly as they were (no reload). -/
theorem c8_repository_switch_reload
    (store : Option String → String → Option String) (r1 r2 s1 s2 : String)
    (d0 : Option Value) (h0 : String)
    (h1 : store (some r1) "model" = some s1) (hs1 : pyStrip s1 ≠ "")
    (h2 : store (some r2) "model" = some s2) (hs2 : pyStrip s2 ≠ "")
    (hr : r1 ≠ r2) (hv : pyStrip s1 ≠ pyStrip s2) :
    ∃ st1 st2 : RuntimeState,
      set_repository store ⟨none, [(modelLoader, d0, h0)]⟩ (some r1) = Except.ok st1 ∧
      set_repository store st1 (some r2) = Except.ok st2 ∧
      st1.repository = some r1 ∧ st2.repository = some r2 ∧
      first_config st1 = some (Value.str (pyStrip s1)) ∧
      first_default st1 = some (Value.str (pyStrip s1)) ∧
      first_help st1 = some (help_of { modelLoader with config := some (Value.str (pyStrip s1)) }) ∧
      first_config st2 = some (Value.str (pyStrip s2)) ∧
      first_default st2 = some (Value.str (pyStrip s2)) ∧
      first_config st1 ≠ first_config st2 ∧
      (∀ st : RuntimeState, set_repository store st st.repository = Except.ok st) := by
  have hk : modelLoader.key = "model" := rfl
  have hload1 : load_config modelLoader (some s1) =
      Except.ok { modelLoader with config := some (Value.str (pyStrip s1)) } := by
    simp [load_config, get_config, modelLoader, load_setting, hs1]
  have hload2 : load_config { modelLoader with config := some (Value.str (pyStrip s1)) }
        (some s2) =
      Except.ok { modelLoader with config := some (Value.str (pyStrip s2)) } := by
    simp [load_config, get_config, modelLoader, load_setting, hs2]
  refine
    ⟨⟨some r1, [({ modelLoader with config := some (Value.str (pyStrip s1)) },
        some (Value.str (pyStrip s1)),
        help_of { modelLoader with config := some (Value.str (pyStrip s1)) })]⟩,
     ⟨some r2, [({ modelLoader with config := some (Value.str (pyStrip s2)) },
        some (Value.str (pyStrip s2)),
        help_of { modelLoader with config := some (Value.str (pyStrip s2)) })]⟩,
     ?_, ?_, rfl, rfl, rfl, rfl, rfl, rfl, rfl, ?_, ?_⟩
  · unfold set_repository
    rw [if_neg (by simp)]
    unfold reload_settings
    rw [hk, h1, hload1]
    rfl
  · unfold set_repository
    rw [if_neg (by simp [hr])]
    unfold reload_settings
    rw [hk, h2, hload2]
    rfl
  · simpa [first_config] using hv
  · intro st
    unfold set_repository
    rw [if_pos rfl]

/-- The config store used to instantiate `c8_repository_switch_reload`:
two repositories holding different stored values for the `model` key. -/
def c8store : Option String → String → Option String := fun r k =>
  if r = some "/repo/a" ∧ k = "model" then some "model-a"
  else if r = some "/repo/b" ∧ k = "model" then some "model-b"
  else none

theorem c8_repository_switch_reload_witness :
    ∃ st1 st2 : RuntimeState,
      set_repository c8store ⟨none, [(modelLoader, none, "")]⟩ (some "/repo/a") =
        Except.ok st1 ∧
      set_repository c8store st1 (some "/repo/b") = Except.ok st2 ∧
      first_config st1 ≠ first_config st2 := by
  obtain ⟨st1, st2, e1, e2, _, _, _, _, _, _, _, hne, _⟩ :=
    c8_repository_switch_reload c8store "/repo/a" "/repo/b" "model-a" "model-b" none ""
      (by decide) (by decide) (by decide) (by decide) (by decide) (by decide)
  exact ⟨st1, st2, e1, e2, hne⟩

/-- A completion transport that always responds with a tool-call request
(for the single declared capability), never with final content. -/
def alwaysToolModel : Transport :=
  fun _ _ => { content := "", tool_calls := [⟨"call-1", "get_respository_description"⟩] }

/-- A client with `max_iterations = 2` and tool use enabled, the failing
input of the boundedness claim. -/
def c1client : LLMClient :=
  { use_emojis := false, max_tokens := 262144, max_output_tokens := 32768,
    max_iterations := 2, use_tools := true, respository_description := none }

/-- With `interaction` never incremented, the loop under `c1client` and
`alwaysToolModel` declares the tool on every round and never produces a
final message, whatever the fuel and the accumulated history. -/
theorem c1_loop_never_ends (fuel : Nat) : ∀ msgs : List Msg,
    message_loop c1client alwaysToolModel msgs 1 fuel =
      (List.replicate fuel available_tool_names, none) := by
  induction fuel with
  | zero => intro msgs; rfl
  | succ n ih =>
    intro msgs
    simp only [message_loop]
    rw [ih]
    norm_num [alwaysToolModel, c1client, available_tool_names, List.replicate_succ]

/-- C1: the conversation loop of `LLMClient.message` is **not** bounded —
the source initializes `interaction = 1` and never increments it, so with
`max_iterations = 2` and a transport that always requests a tool call the
loop yields no final message within any number of completion round-trips,
and the request of round 2 (and of every later round) still carries the
tool declarations instead of omitting them. -/
theorem c1_tool_loop_unbounded :
    (∀ fuel : Nat, (message c1client alwaysToolModel "some staged diff" fuel).2 = none) ∧
    (message c1client alwaysToolModel "some staged diff" 2).1 =
      [available_tool_names, available_tool_names] ∧
    available_tool_names ≠ [] := by
  refine ⟨fun fuel => ?_, ?_, by decide⟩
  · rw [message, c1_loop_never_ends]
  · rw [message, c1_loop_never_ends]
    rfl
